import Mathlib

/-!
Shallow embedding of the session and generation engine of
`src/src-tauri/src/lib.rs` (struct `LLMAgent` and the `tauri::command`
wrappers), together with theorems settling the frozen claims about it.

External effects (filesystem probing, GGUF model loading, tokenizer
loading, cache construction, and the tensor forward pass) are modelled as
oracle structures (`Env`, `GenOracle`) passed explicitly; the session
state and every control-flow decision of the Rust code are translated
directly.
-/

set_option maxRecDepth 4000

/-- Embeds `struct ChatMessage { role: String, content: String }`. -/
structure ChatMessage where
  role : String
  content : String
deriving DecidableEq, Repr

/-- Embeds the session-relevant state of `struct LLMAgent`.  The
`Option<Llama>`, `Option<Tokenizer>`, `Option<Cache>` and
`Option<LlamaConfig>` fields are represented by Booleans recording
whether they are `Some` (their payloads are opaque handles whose
behaviour lives in the oracles). -/
structure LLMAgent where
  model_path : Option String
  conversation : List ChatMessage
  system_prompt : String
  is_initialized : Bool
  model_name : String
  hasModel : Bool
  hasTokenizer : Bool
  hasCache : Bool
  hasConfig : Bool
deriving DecidableEq, Repr

/-- Embeds `LLMAgent::new`. -/
def LLMAgent.new : LLMAgent :=
  { model_path := none
    conversation := []
    system_prompt := "You are a helpful assistant."
    is_initialized := false
    model_name := "local-model"
    hasModel := false
    hasTokenizer := false
    hasCache := false
    hasConfig := false }

/-- Environment oracle for the fallible external operations performed by
`LLMAgent::initialize` and `LLMAgent::reset_conversation`:
`Path::exists`, the whole GGUF-load sequence (`File::open`,
`gguf_file::Content::read`, tensor extraction, `Llama::load`), the
tokenizer discovery of `load_tokenizer`, and `Cache::new`. -/
structure Env where
  fileExists : String → Bool
  loadModelOk : String → Bool
  loadTokenizerOk : String → Bool
  cacheNewOk : Bool

/-- Embeds `Path::new(p).file_name().and_then(to_str).unwrap_or("Unknown")`
for Unix-style paths. -/
def fileName (p : String) : String :=
  match (p.splitOn "/").reverse.head? with
  | some s => if s = "" ∨ s = ".." then "Unknown" else s
  | none => "Unknown"

/-- Embeds `LLMAgent::initialize` (lines 50-135 of lib.rs).  The mutation
order of the Rust code is kept: the path-existence check precedes every
mutation; `model_path`/`model_name` are set before model loading; model
and config are set before cache creation; the tokenizer is (re)set before
the conversation is reset and `is_initialized` raised. -/
def initModel (a : LLMAgent) (model_path : String) (env : Env) :
    Except String String × LLMAgent :=
  if env.fileExists model_path = false then
    (.error ("Model file not found: " ++ model_path), a)
  else
    let a1 := { a with model_path := some model_path, model_name := fileName model_path }
    if env.loadModelOk model_path = false then
      (.error "model load failed", a1)
    else
      let a2 := { a1 with hasModel := true, hasConfig := true }
      if env.cacheNewOk = false then
        (.error "cache creation failed", a2)
      else
        let a3 := { a2 with hasCache := true }
        if env.loadTokenizerOk model_path = false then
          (.error "Could not load tokenizer. Please ensure tokenizer.json is in the same directory as your model file.",
            { a3 with hasTokenizer := false })
        else
          let a4 := { a3 with
            hasTokenizer := true
            conversation := [⟨"system", a3.system_prompt⟩]
            is_initialized := true }
          (.ok ("Successfully loaded GGUF model: " ++ fileName model_path ++
              " with real inference capability!"), a4)

/-- Generation oracle for the fallible tokenizer/model operations used by
`generate_response_with_model`: `Tokenizer::encode`, the forward pass
followed by greedy `argmax` (`model.forward` + `argmax` + `to_scalar`,
a function of the current token context), and `Tokenizer::decode`. -/
structure GenOracle where
  encode : String → Option (List Nat)
  forwardNext : List Nat → Option Nat
  decode : List Nat → Option String

/-- Embeds the prompt-building loop of `generate_response_with_model`
(lines 187-196): each turn rendered as "RoleLabel: content\n", unknown
roles skipped, terminated by the open "Assistant: " cue. -/
def buildPrompt (conv : List ChatMessage) : String :=
  (conv.foldl (fun acc msg =>
    if msg.role = "system" then acc ++ "System: " ++ msg.content ++ "\n"
    else if msg.role = "user" then acc ++ "User: " ++ msg.content ++ "\n"
    else if msg.role = "assistant" then acc ++ "Assistant: " ++ msg.content ++ "\n"
    else acc) "") ++ "Assistant: "

/-- Embeds Rust `str::trim` (whitespace stripped from both ends),
written structurally over the character list so it evaluates in the
kernel.  Rust trims by Unicode White_Space, `Char.isWhitespace` by the
ASCII subset; the difference is immaterial to every claim. -/
def rustTrim (s : String) : String :=
  String.mk (((s.data.dropWhile Char.isWhitespace).reverse.dropWhile
    Char.isWhitespace).reverse)

/-- Embeds `partial.trim().ends_with('.') || ... ('!') || ... ('?')`
applied to an already-trimmed string: true when the last character is
sentence-terminal punctuation. -/
def endsTerminal (s : String) : Bool :=
  match s.data.getLast? with
  | some c => c == '.' || c == '!' || c == '?'
  | none => false

/-- Embeds the periodic early-stop check of the decode loop (lines
237-244): fires only when the generated-token count is strictly greater
than 50 and a multiple of 10, the periodic decode succeeds, and the
trimmed partial text ends in sentence-terminal punctuation.  A decode
failure skips the check (Rust `if let Ok(partial)`). -/
def heuristicStop (o : GenOracle) (generated : List Nat) : Bool :=
  decide (50 < generated.length) && decide (generated.length % 10 = 0) &&
    (match o.decode generated with
     | some p => endsTerminal (rustTrim p)
     | none => false)

/-- Embeds the `for i in 0..max_new_tokens` decode loop (lines 212-245).
Each iteration: forward pass + argmax (token op failures become the loop
error); break before pushing when the token is 2 or 0; otherwise push,
then run the periodic early-stop heuristic on the updated generated list. -/
def genLoop (o : GenOracle) : Nat → List Nat → List Nat → Except String (List Nat)
  | 0, _, generated => .ok generated
  | fuel + 1, ctx, generated =>
    match o.forwardNext ctx with
    | none => .error "forward failed"
    | some tok =>
      if tok = 2 ∨ tok = 0 then .ok generated
      else
        let gen := generated ++ [tok]
        if heuristicStop o gen then .ok gen
        else genLoop o fuel (ctx ++ [tok]) gen

/-- The `max_new_tokens` constant of line 210. -/
def max_new_tokens : Nat := 256

/-- Embeds `LLMAgent::generate_response_with_model` (lines 181-254): the
model/tokenizer/cache presence checks, prompt building, tokenization, the
decode loop, and the final decode + trim.  The conversation is not
touched here (the Rust method only mutates the cache). -/
def generate_response_with_model (a : LLMAgent) (o : GenOracle) :
    Except String String :=
  if a.hasModel = false then .error "Model not loaded"
  else if a.hasTokenizer = false then .error "Tokenizer not loaded"
  else if a.hasCache = false then .error "Cache not initialized"
  else
    match o.encode (buildPrompt a.conversation) with
    | none => .error "Tokenization failed"
    | some tokens =>
      match genLoop o max_new_tokens tokens [] with
      | .error e => .error e
      | .ok generated =>
        match o.decode generated with
        | none => .error "Decoding failed"
        | some response => .ok (rustTrim response)

/-- Embeds `LLMAgent::send_message` (lines 158-179): the initialization
check, the push of the user turn, the generation call (whose `?` error
propagates after the user turn is already pushed), and the push of the
assistant turn on success. -/
def send_message (a : LLMAgent) (o : GenOracle) (message : String) :
    Except String String × LLMAgent :=
  if a.is_initialized = false then (.error "Model not initialized", a)
  else
    let a1 := { a with conversation := a.conversation ++ [⟨"user", message⟩] }
    match generate_response_with_model a1 o with
    | .error e => (.error e, a1)
    | .ok response =>
      (.ok response,
        { a1 with conversation := a1.conversation ++ [⟨"assistant", response⟩] })

/-- Embeds `LLMAgent::reset_conversation` (lines 256-269): the
conversation is unconditionally reset to the single system turn (no
initialization check), then the cache is recreated when a config is
present, with `Cache::new` failure propagated after the conversation was
already reset. -/
def reset_conversation (a : LLMAgent) (env : Env) :
    Except String Unit × LLMAgent :=
  let a1 := { a with conversation := [⟨"system", a.system_prompt⟩] }
  if a1.hasConfig then
    if env.cacheNewOk then (.ok (), { a1 with hasCache := true })
    else (.error "cache creation failed", a1)
  else (.ok (), a1)

/-- Embeds the `update_system_prompt` tauri command (lines 327-331): it
is a stub that ignores its argument, mutates nothing, and returns the
confirmation string. -/
def update_system_prompt (a : LLMAgent) (_prompt : String) :
    String × LLMAgent :=
  ("System prompt updated", a)

/-- True on `Except.ok`. -/
def exceptIsOk {α : Type} : Except String α → Bool
  | .ok _ => true
  | .error _ => false

/-- Number of generated tokens carried by a decode-loop outcome. -/
def genCount : Except String (List Nat) → Nat
  | .ok l => l.length
  | .error _ => 0

/-- Conversation invariant of the spec: nonempty with a leading system
turn. -/
def convInv (a : LLMAgent) : Prop :=
  a.conversation ≠ [] ∧ a.conversation.head?.map ChatMessage.role = some "system"

/-- Environment in which every external operation succeeds. -/
def envGood : Env :=
  { fileExists := fun _ => true
    loadModelOk := fun _ => true
    loadTokenizerOk := fun _ => true
    cacheNewOk := true }

/-- Environment in which the model artifact exists but the backend
(model loading) fails. -/
def envDown : Env :=
  { fileExists := fun _ => true
    loadModelOk := fun _ => false
    loadTokenizerOk := fun _ => true
    cacheNewOk := true }

/-- Environment in which no file exists. -/
def envNoFile : Env :=
  { fileExists := fun _ => false
    loadModelOk := fun _ => false
    loadTokenizerOk := fun _ => false
    cacheNewOk := true }

/-- A session straight after a fully successful initialization. -/
def readyAgent : LLMAgent := (initModel LLMAgent.new "/m.gguf" envGood).2

/-- Oracle whose tokenizer fails to encode. -/
def oEncFail : GenOracle :=
  { encode := fun _ => none
    forwardNext := fun _ => none
    decode := fun _ => none }

/-- Oracle whose forward pass fails (backend down during generation). -/
def oDown : GenOracle :=
  { encode := fun _ => some []
    forwardNext := fun _ => none
    decode := fun _ => some "" }

/-- Oracle that always emits token 5 and decodes every prefix to a
sentence ending in a period. -/
def oDot : GenOracle :=
  { encode := fun _ => some []
    forwardNext := fun _ => some 5
    decode := fun _ => some "ok." }

/-- Oracle that immediately emits the end-of-sequence token 2. -/
def oEos : GenOracle :=
  { encode := fun _ => some []
    forwardNext := fun _ => some 2
    decode := fun _ => some "" }


/-! ## Helper lemmas about the decode loop -/

/-- One loop iteration fails when the forward pass fails. -/
theorem genLoop_step_fail (o : GenOracle) (fuel : Nat) (ctx gen : List Nat)
    (h : o.forwardNext ctx = none) :
    genLoop o (fuel + 1) ctx gen = .error "forward failed" := by
  unfold genLoop
  rw [h]

/-- One loop iteration returns the accumulated tokens unchanged when the
forward pass yields token 2 or token 0. -/
theorem genLoop_step_eos (o : GenOracle) (fuel : Nat) (ctx gen : List Nat)
    (tok : Nat) (h : o.forwardNext ctx = some tok) (he : tok = 2 ∨ tok = 0) :
    genLoop o (fuel + 1) ctx gen = .ok gen := by
  unfold genLoop
  rw [h]
  simp [he]

/-- One loop iteration on a non-end-of-sequence token appends it and
either stops by the periodic heuristic or recurses. -/
theorem genLoop_step_nonEos (o : GenOracle) (fuel : Nat) (ctx gen : List Nat)
    (tok : Nat) (h : o.forwardNext ctx = some tok) (h2 : tok ≠ 2) (h0 : tok ≠ 0) :
    genLoop o (fuel + 1) ctx gen =
      if heuristicStop o (gen ++ [tok]) then .ok (gen ++ [tok])
      else genLoop o fuel (ctx ++ [tok]) (gen ++ [tok]) := by
  conv_lhs => unfold genLoop
  rw [h]
  simp [h2, h0]

/-- The loop adds at most `fuel` tokens to the accumulator. -/
theorem genLoop_length_le (o : GenOracle) :
    ∀ (fuel : Nat) (ctx gen res : List Nat),
      genLoop o fuel ctx gen = .ok res → res.length ≤ gen.length + fuel := by
  intro fuel
  induction fuel with
  | zero =>
    intro ctx gen res h
    simp only [genLoop] at h
    cases h
    simp
  | succ n ih =>
    intro ctx gen res h
    cases hf : o.forwardNext ctx with
    | none =>
      rw [genLoop_step_fail o n ctx gen hf] at h
      cases h
    | some tok =>
      by_cases he : tok = 2 ∨ tok = 0
      · rw [genLoop_step_eos o n ctx gen tok hf he] at h
        cases h
        omega
      · push_neg at he
        rw [genLoop_step_nonEos o n ctx gen tok hf he.1 he.2] at h
        by_cases hh : heuristicStop o (gen ++ [tok]) = true
        · rw [if_pos hh] at h
          cases h
          simp
        · rw [if_neg hh] at h
          have := ih (ctx ++ [tok]) (gen ++ [tok]) res h
          simp at this
          omega

/-- Tokens 0 and 2 never enter the accumulated generated list. -/
theorem genLoop_no_eos (o : GenOracle) :
    ∀ (fuel : Nat) (ctx gen res : List Nat),
      (∀ t ∈ gen, t ≠ 0 ∧ t ≠ 2) →
      genLoop o fuel ctx gen = .ok res → ∀ t ∈ res, t ≠ 0 ∧ t ≠ 2 := by
  intro fuel
  induction fuel with
  | zero =>
    intro ctx gen res hg h
    simp only [genLoop] at h
    cases h
    exact hg
  | succ n ih =>
    intro ctx gen res hg h
    cases hf : o.forwardNext ctx with
    | none =>
      rw [genLoop_step_fail o n ctx gen hf] at h
      cases h
    | some tok =>
      by_cases he : tok = 2 ∨ tok = 0
      · rw [genLoop_step_eos o n ctx gen tok hf he] at h
        cases h
        exact hg
      · push_neg at he
        have hg2 : ∀ t ∈ gen ++ [tok], t ≠ 0 ∧ t ≠ 2 := by
          intro t ht
          rcases List.mem_append.mp ht with h1 | h1
          · exact hg t h1
          · simp at h1
            subst h1
            exact ⟨he.2, he.1⟩
        rw [genLoop_step_nonEos o n ctx gen tok hf he.1 he.2] at h
        by_cases hh : heuristicStop o (gen ++ [tok]) = true
        · rw [if_pos hh] at h
          cases h
          exact hg2
        · rw [if_neg hh] at h
          exact ih (ctx ++ [tok]) (gen ++ [tok]) res hg2 h

/-- Unfolding of the periodic early-stop check. -/
theorem heuristicStop_iff (o : GenOracle) (g : List Nat) :
    heuristicStop o g = true ↔
      50 < g.length ∧ g.length % 10 = 0 ∧
        ∃ p, o.decode g = some p ∧ endsTerminal (rustTrim p) = true := by
  unfold heuristicStop
  cases hd : o.decode g with
  | none => simp
  | some p =>
    simp [Bool.and_eq_true, decide_eq_true_iff]
    tauto

/-- Head of a list extended on the right, when the left part is a cons. -/
theorem head?_cons_append {α : Type} (m : α) (rest l : List α) :
    ((m :: rest) ++ l).head? = some m := rfl

/-! ## Helper lemmas about the session operations -/

/-- Appending on the right preserves nonemptiness and the leading system
turn. -/
theorem convInv_append {conv : List ChatMessage} (l : List ChatMessage)
    (h1 : conv ≠ []) (h2 : conv.head?.map ChatMessage.role = some "system") :
    conv ++ l ≠ [] ∧ (conv ++ l).head?.map ChatMessage.role = some "system" := by
  cases conv with
  | nil => exact absurd rfl h1
  | cons m rest => exact ⟨by simp, by simpa using h2⟩

/-- `reset_conversation` always leaves exactly the single fresh system
turn, regardless of the cache-recreation outcome. -/
theorem reset_conversation_conv (a : LLMAgent) (env : Env) :
    (reset_conversation a env).2.conversation = [⟨"system", a.system_prompt⟩] := by
  simp only [reset_conversation]
  split_ifs <;> rfl

/-- On a successful `initialize` the conversation is the single system
turn and the ready flag is raised. -/
theorem initModel_ok_state (a : LLMAgent) (p : String) (env : Env)
    (h : exceptIsOk (initModel a p env).1 = true) :
    (initModel a p env).2.conversation = [⟨"system", a.system_prompt⟩] ∧
    (initModel a p env).2.is_initialized = true := by
  simp only [initModel] at h ⊢
  split_ifs at h ⊢ <;> simp_all [exceptIsOk]

/-- On a failed `initialize` the conversation is untouched and the ready
flag keeps its previous value. -/
theorem initModel_err_state (a : LLMAgent) (p : String) (env : Env)
    (h : exceptIsOk (initModel a p env).1 = false) :
    (initModel a p env).2.conversation = a.conversation ∧
    (initModel a p env).2.is_initialized = a.is_initialized := by
  simp only [initModel] at h ⊢
  split_ifs at h ⊢ <;> simp_all [exceptIsOk]

/-- `send_message` only ever appends to the conversation. -/
theorem send_message_conv_append (a : LLMAgent) (o : GenOracle) (msg : String) :
    ∃ l, (send_message a o msg).2.conversation = a.conversation ++ l := by
  unfold send_message
  by_cases hi : a.is_initialized = false
  · exact ⟨[], by simp [hi]⟩
  · rw [if_neg hi]
    cases hg : generate_response_with_model
        { a with conversation := a.conversation ++ [⟨"user", msg⟩] } o with
    | error e => exact ⟨[⟨"user", msg⟩], by simp [hg]⟩
    | ok r => exact ⟨[⟨"user", msg⟩, ⟨"assistant", r⟩], by simp [hg]⟩

/-! ## Claim theorems -/

/-- C4: for every artifact path that does not resolve to an existing
file, `initialize` returns the artifact-not-found error and the session
is returned entirely unchanged (in particular still Uninitialized). -/
theorem C4_artifact_not_found (a : LLMAgent) (p : String) (env : Env)
    (h : env.fileExists p = false) :
    (initModel a p env).1 = .error ("Model file not found: " ++ p) ∧
    (initModel a p env).2 = a := by
  unfold initModel
  rw [if_pos h]
  exact ⟨rfl, rfl⟩

/-- Witness for C4 at the spec's own scenario path. -/
theorem C4_artifact_not_found_witness :
    (initModel LLMAgent.new "/nonexistent/model.gguf" envNoFile).1 =
      .error ("Model file not found: " ++ "/nonexistent/model.gguf") ∧
    (initModel LLMAgent.new "/nonexistent/model.gguf" envNoFile).2 = LLMAgent.new :=
  C4_artifact_not_found LLMAgent.new "/nonexistent/model.gguf" envNoFile rfl

/-- C5: on any initialized session, `reset` leaves a conversation of
length exactly 1 whose sole turn is the system turn carrying the
configured system prompt. -/
theorem C5_reset_single_system_turn (a : LLMAgent) (env : Env)
    (h : a.is_initialized = true) :
    (reset_conversation a env).2.conversation = [⟨"system", a.system_prompt⟩] ∧
    (reset_conversation a env).2.conversation.length = 1 := by
  refine ⟨reset_conversation_conv a env, ?_⟩
  rw [reset_conversation_conv a env]
  rfl

/-- Witness for C5 on a freshly initialized session. -/
theorem C5_reset_single_system_turn_witness :
    (reset_conversation readyAgent envGood).2.conversation =
      [⟨"system", readyAgent.system_prompt⟩] ∧
    (reset_conversation readyAgent envGood).2.conversation.length = 1 :=
  C5_reset_single_system_turn readyAgent envGood (by decide)

/-- C6: the decode loop is a bounded `for` loop: whatever the backend
oracle does, it terminates (it is a total function of its fuel) and the
generated-token count of its outcome never exceeds the configured
`max_new_tokens` cap of 256. -/
theorem C6_decode_loop_bounded :
    max_new_tokens = 256 ∧
    ∀ (o : GenOracle) (ctx : List Nat),
      genCount (genLoop o max_new_tokens ctx []) ≤ max_new_tokens := by
  refine ⟨rfl, ?_⟩
  intro o ctx
  cases hr : genLoop o max_new_tokens ctx [] with
  | error e => simp [genCount]
  | ok res =>
    have := genLoop_length_le o max_new_tokens ctx [] res hr
    simpa [genCount] using this

/-- C9 (code bug): the `update_system_prompt` command is a stub.  It
returns the confirmation string while mutating nothing, so an update
followed by `reset` still yields the old system prompt, not the newly
supplied one. -/
theorem C9_update_prompt_stub :
    (update_system_prompt LLMAgent.new "Be terse.").1 = "System prompt updated" ∧
    (update_system_prompt LLMAgent.new "Be terse.").2 = LLMAgent.new ∧
    (reset_conversation (update_system_prompt LLMAgent.new "Be terse.").2
        envGood).2.conversation = [⟨"system", "You are a helpful assistant."⟩] ∧
    ("You are a helpful assistant." : String) ≠ "Be terse." :=
  ⟨rfl, rfl, by decide, by decide⟩

/-- C10: the loop stops, without pushing, exactly on the hardcoded
end-of-sequence ids 2 and 0: it returns the accumulator unchanged when
the argmax token is 2 or 0, appends any other token, and consequently the
generated sequence handed to the final decode never contains 0 or 2. -/
theorem C10_eos_handling :
    (∀ (o : GenOracle) (fuel : Nat) (ctx gen : List Nat) (tok : Nat),
        o.forwardNext ctx = some tok → (tok = 2 ∨ tok = 0) →
        genLoop o (fuel + 1) ctx gen = .ok gen) ∧
    (∀ (o : GenOracle) (fuel : Nat) (ctx gen : List Nat) (tok : Nat),
        o.forwardNext ctx = some tok → tok ≠ 2 → tok ≠ 0 →
        genLoop o (fuel + 1) ctx gen =
          if heuristicStop o (gen ++ [tok]) then .ok (gen ++ [tok])
          else genLoop o fuel (ctx ++ [tok]) (gen ++ [tok])) ∧
    (∀ (o : GenOracle) (ctx res : List Nat),
        genLoop o max_new_tokens ctx [] = .ok res →
        ∀ t ∈ res, t ≠ 0 ∧ t ≠ 2) :=
  ⟨genLoop_step_eos, genLoop_step_nonEos,
    fun o ctx res h => genLoop_no_eos o max_new_tokens ctx [] res (by simp) h⟩

/-- Witness for C10: the eos-stop applied to a backend that emits token
2 immediately, the non-eos step applied to token 5, and the exclusion
fact applied to a full concrete run. -/
theorem C10_eos_handling_witness :
    genLoop oEos 256 [] [] = .ok [] ∧
    genLoop oDot 1 [7] [7] =
      (if heuristicStop oDot ([7] ++ [5]) then .ok ([7] ++ [5])
       else genLoop oDot 0 ([7] ++ [5]) ([7] ++ [5])) ∧
    ((5 : Nat) ≠ 0 ∧ (5 : Nat) ≠ 2) :=
  ⟨C10_eos_handling.1 oEos 255 [] [] 2 rfl (Or.inl rfl),
   C10_eos_handling.2.1 oDot 0 [7] [7] 5 rfl (by decide) (by decide),
   C10_eos_handling.2.2 oDot [] (List.replicate 60 5) rfl 5 (by simp)⟩

/-- C1 counterexample: with the model artifact present but the backend
failing to load, `initialize` returns an error and the session does not
reach Ready; and with a ready session whose backend fails during
generation, `send("hello")` returns an error to the caller.  There is no
fallback responder in the code. -/
theorem C1_claim_counterexample :
    exceptIsOk (initModel LLMAgent.new "/m.gguf" envDown).1 = false ∧
    (initModel LLMAgent.new "/m.gguf" envDown).2.is_initialized = false ∧
    (send_message readyAgent oDown "hello").1 = .error "forward failed" :=
  ⟨by decide, by decide, rfl⟩

/-- C1 amended: backend failure is not masked.  When model loading fails
during `initialize` the call errors and leaves the ready flag and the
conversation as they were, and when generation fails during `send` the
error is propagated to the caller. -/
theorem C1_amended_no_fallback (a : LLMAgent) (p : String) (env : Env)
    (b : LLMAgent) (o : GenOracle) (msg : String)
    (h1 : env.fileExists p = true) (h2 : env.loadModelOk p = false)
    (h3 : b.is_initialized = true)
    (h4 : exceptIsOk (generate_response_with_model
      { b with conversation := b.conversation ++ [⟨"user", msg⟩] } o) = false) :
    exceptIsOk (initModel a p env).1 = false ∧
    (initModel a p env).2.is_initialized = a.is_initialized ∧
    (initModel a p env).2.conversation = a.conversation ∧
    exceptIsOk (send_message b o msg).1 = false := by
  refine ⟨?_, ?_, ?_, ?_⟩
  · simp [initModel, h1, h2, exceptIsOk]
  · simp [initModel, h1, h2]
  · simp [initModel, h1, h2]
  · simp only [send_message]
    rw [if_neg (by simp [h3])]
    cases hg : generate_response_with_model
        { b with conversation := b.conversation ++ [⟨"user", msg⟩] } o with
    | error e => simp [exceptIsOk]
    | ok r => rw [hg] at h4; simp [exceptIsOk] at h4

/-- Witness for the amended C1 on the concrete failing environment and
oracle of the counterexample. -/
theorem C1_amended_no_fallback_witness :
    exceptIsOk (initModel LLMAgent.new "/m.gguf" envDown).1 = false ∧
    (initModel LLMAgent.new "/m.gguf" envDown).2.is_initialized =
      LLMAgent.new.is_initialized ∧
    (initModel LLMAgent.new "/m.gguf" envDown).2.conversation =
      LLMAgent.new.conversation ∧
    exceptIsOk (send_message readyAgent oDown "hello").1 = false :=
  C1_amended_no_fallback LLMAgent.new "/m.gguf" envDown readyAgent oDown "hello"
    rfl rfl (by decide) (by decide)

/-- C2 counterexample: on a ready session whose tokenizer fails to
encode, `send` errors, yet the conversation has grown by the user turn
alone — it is left partially updated, not unchanged. -/
theorem C2_claim_counterexample :
    exceptIsOk (send_message readyAgent oEncFail "hi").1 = false ∧
    (send_message readyAgent oEncFail "hi").2.conversation =
      readyAgent.conversation ++ [⟨"user", "hi"⟩] ∧
    (send_message readyAgent oEncFail "hi").2.conversation ≠
      readyAgent.conversation :=
  ⟨by decide, by decide, by decide⟩

/-- C2 amended: `send` on a ready session appends the user turn first;
on generation success both turns are appended as a pair, and on any
generation failure (tokenization or backend setup included) the
conversation is left extended by the user turn only. -/
theorem C2_amended_partial_update (a : LLMAgent) (o : GenOracle) (msg : String)
    (h : a.is_initialized = true) :
    (∃ r, (send_message a o msg).1 = .ok r ∧
      (send_message a o msg).2.conversation =
        a.conversation ++ [⟨"user", msg⟩, ⟨"assistant", r⟩]) ∨
    (exceptIsOk (send_message a o msg).1 = false ∧
      (send_message a o msg).2.conversation = a.conversation ++ [⟨"user", msg⟩]) := by
  simp only [send_message]
  rw [if_neg (by simp [h])]
  cases hg : generate_response_with_model
      { a with conversation := a.conversation ++ [⟨"user", msg⟩] } o with
  | error e =>
    exact Or.inr ⟨by simp [exceptIsOk], rfl⟩
  | ok r =>
    exact Or.inl ⟨r, rfl, by simp⟩

/-- Witness for the amended C2 on the concrete tokenization-failure
oracle. -/
theorem C2_amended_partial_update_witness :
    (∃ r, (send_message readyAgent oEncFail "hi").1 = .ok r ∧
      (send_message readyAgent oEncFail "hi").2.conversation =
        readyAgent.conversation ++ [⟨"user", "hi"⟩, ⟨"assistant", r⟩]) ∨
    (exceptIsOk (send_message readyAgent oEncFail "hi").1 = false ∧
      (send_message readyAgent oEncFail "hi").2.conversation =
        readyAgent.conversation ++ [⟨"user", "hi"⟩]) :=
  C2_amended_partial_update readyAgent oEncFail "hi" (by decide)

/-- C3 counterexample: on the fresh, never-initialized session, `reset`
succeeds instead of failing with `NotInitialized`. -/
theorem C3_claim_counterexample :
    LLMAgent.new.is_initialized = false ∧
    exceptIsOk (reset_conversation LLMAgent.new envGood).1 = true :=
  ⟨rfl, by decide⟩

/-- C3 amended: before a successful `initialize`, `send` fails with the
not-initialized error and leaves the whole session (conversation
included) unchanged, but `reset` performs no initialization check: it
succeeds (whenever cache recreation is not reached or succeeds) and
resets the conversation to the single system turn. -/
theorem C3_amended_uninit (a : LLMAgent) (o : GenOracle) (msg : String)
    (env : Env) (h : a.is_initialized = false)
    (hd : a.hasConfig = false ∨ env.cacheNewOk = true) :
    (send_message a o msg).1 = .error "Model not initialized" ∧
    (send_message a o msg).2 = a ∧
    (reset_conversation a env).1 = .ok () ∧
    (reset_conversation a env).2.conversation = [⟨"system", a.system_prompt⟩] := by
  refine ⟨by simp [send_message, h], by simp [send_message, h], ?_,
    reset_conversation_conv a env⟩
  unfold reset_conversation
  by_cases hc : a.hasConfig = true
  · have hcache : env.cacheNewOk = true := by
      rcases hd with h1 | h1
      · rw [hc] at h1; cases h1
      · exact h1
    simp [hc, hcache]
  · simp at hc
    simp [hc]

/-- Witness for the amended C3 on the fresh session. -/
theorem C3_amended_uninit_witness :
    (send_message LLMAgent.new oEncFail "hi").1 = .error "Model not initialized" ∧
    (send_message LLMAgent.new oEncFail "hi").2 = LLMAgent.new ∧
    (reset_conversation LLMAgent.new envGood).1 = .ok () ∧
    (reset_conversation LLMAgent.new envGood).2.conversation =
      [⟨"system", LLMAgent.new.system_prompt⟩] :=
  C3_amended_uninit LLMAgent.new oEncFail "hi" envGood rfl (Or.inl rfl)

/-- Heuristic condition as the claim words it ("after at least 50
generated tokens and at every 10 generated tokens thereafter"): count at
least 50 and a multiple of 10, with the trimmed partial decode ending in
terminal punctuation.  Written only for comparison against the code's
`heuristicStop`. -/
def specHeuristicStop (o : GenOracle) (generated : List Nat) : Bool :=
  decide (50 ≤ generated.length) && decide (generated.length % 10 = 0) &&
    (match o.decode generated with
     | some p => endsTerminal (rustTrim p)
     | none => false)

/-- C7 counterexample: with a backend that always emits token 5 and a
tokenizer that decodes every prefix to "ok.", the claim's condition
already holds at 50 generated tokens, yet the code's check is false
there (it tests `len > 50`) and the concrete run stops only at 60. -/
theorem C7_claim_counterexample :
    specHeuristicStop oDot (List.replicate 50 5) = true ∧
    heuristicStop oDot (List.replicate 50 5) = false ∧
    genLoop oDot 256 [] [] = .ok (List.replicate 60 5) :=
  ⟨by decide, by decide, rfl⟩

/-- C7 amended: on a non-end-of-sequence token the loop stops early via
the heuristic exactly when, with the token counted, strictly more than
50 tokens have been generated (so the first check is at 60), the count
is a multiple of 10, and the successfully decoded partial text, trimmed,
ends in sentence-terminal punctuation. -/
theorem C7_amended_heuristic :
    (∀ (o : GenOracle) (fuel : Nat) (ctx gen : List Nat) (tok : Nat),
        o.forwardNext ctx = some tok → tok ≠ 2 → tok ≠ 0 →
        genLoop o (fuel + 1) ctx gen =
          if heuristicStop o (gen ++ [tok]) then .ok (gen ++ [tok])
          else genLoop o fuel (ctx ++ [tok]) (gen ++ [tok])) ∧
    (∀ (o : GenOracle) (g : List Nat),
        heuristicStop o g = true ↔
          50 < g.length ∧ g.length % 10 = 0 ∧
            ∃ p, o.decode g = some p ∧ endsTerminal (rustTrim p) = true) :=
  ⟨genLoop_step_nonEos, heuristicStop_iff⟩

/-- Witness for the amended C7: one concrete non-eos loop step. -/
theorem C7_amended_heuristic_witness :
    genLoop oDot 1 [] [] =
      if heuristicStop oDot ([] ++ [5]) then .ok ([] ++ [5])
      else genLoop oDot 0 ([] ++ [5]) ([] ++ [5]) :=
  C7_amended_heuristic.1 oDot 0 [] [] 5 rfl (by decide) (by decide)

/-- C8: after a successful `initialize` the conversation is the
nonempty, system-headed singleton; failed initialization leaves the
conversation untouched; `send` and `reset` preserve nonemptiness and
the leading system turn. -/
theorem C8_conversation_invariant :
    (∀ (a : LLMAgent) (p : String) (env : Env),
        exceptIsOk (initModel a p env).1 = true → convInv (initModel a p env).2) ∧
    (∀ (a : LLMAgent) (p : String) (env : Env),
        exceptIsOk (initModel a p env).1 = false →
        (initModel a p env).2.conversation = a.conversation) ∧
    (∀ (a : LLMAgent) (o : GenOracle) (msg : String),
        convInv a → convInv (send_message a o msg).2) ∧
    (∀ (a : LLMAgent) (env : Env), convInv (reset_conversation a env).2) := by
  refine ⟨?_, ?_, ?_, ?_⟩
  · intro a p env h
    unfold convInv
    rw [(initModel_ok_state a p env h).1]
    exact ⟨by simp, rfl⟩
  · intro a p env h
    exact (initModel_err_state a p env h).1
  · intro a o msg h
    obtain ⟨l, hl⟩ := send_message_conv_append a o msg
    unfold convInv
    rw [hl]
    exact convInv_append l h.1 h.2
  · intro a env
    unfold convInv
    rw [reset_conversation_conv a env]
    exact ⟨by simp, rfl⟩

/-- Witness for C8 on concrete sessions, environments and oracles. -/
theorem C8_conversation_invariant_witness :
    convInv (initModel LLMAgent.new "/m.gguf" envGood).2 ∧
    (initModel LLMAgent.new "/nonexistent/model.gguf" envNoFile).2.conversation =
      LLMAgent.new.conversation ∧
    convInv (send_message readyAgent oDot "hello").2 ∧
    convInv (reset_conversation LLMAgent.new envGood).2 :=
  ⟨C8_conversation_invariant.1 LLMAgent.new "/m.gguf" envGood (by decide),
   C8_conversation_invariant.2.1 LLMAgent.new "/nonexistent/model.gguf" envNoFile
     (by decide),
   C8_conversation_invariant.2.2.1 readyAgent oDot "hello" ⟨by decide, by decide⟩,
   C8_conversation_invariant.2.2.2 LLMAgent.new envGood⟩
